import Mathlib

/-!
Shallow embedding of the agent-readiness scoring framework
(src/agent_readiness/models.py, pillar.py, scanner.py and the pillar
subclasses in src/agent_readiness/pillars/), together with theorems
checking the specification claims about it.

Scores and weights are Python floats in the source; they are modelled as
rationals (ℚ), which represent every computation the scoring code performs
(sums, products, one division) exactly.
-/

namespace AgentReadiness

/-- models.py `Severity(Enum)`: the closed enum with members
INFO, WARNING, ERROR, CRITICAL. -/
inductive Severity where
  | info
  | warning
  | error
  | critical
deriving DecidableEq, Repr

/-- models.py `Severity.value` strings. -/
def Severity.value : Severity → String
  | .info => "info"
  | .warning => "warning"
  | .error => "error"
  | .critical => "critical"

/-- The member names of the `Severity` enum as written in models.py;
Python attribute access `Severity.<NAME>` succeeds exactly for these. -/
def Severity.memberNames : List String :=
  ["INFO", "WARNING", "ERROR", "CRITICAL"]

/-- models.py `CheckResult` dataclass: fields `name`, `passed`, `message`,
`severity`, `metadata` (and no others).  `metadata: dict[str, Any]` is
modelled as an association list with opaque string values; its contents
are never inspected by the framework. -/
structure CheckResult where
  name : String
  passed : Bool
  message : String
  severity : Severity
  metadata : List (String × String) := []
deriving DecidableEq, Repr

/-- The keyword parameters accepted by the `CheckResult` dataclass
constructor in models.py, in declaration order. -/
def CheckResult.fields : List String :=
  ["name", "passed", "message", "severity", "metadata"]

/-- models.py `CheckResult.to_dict` image: keys name, passed, message,
severity (as its string value), metadata. -/
structure CheckDict where
  name : String
  passed : Bool
  message : String
  severity : String
  metadata : List (String × String)
deriving DecidableEq, Repr

/-- models.py `CheckResult.to_dict`. -/
def CheckResult.to_dict (c : CheckResult) : CheckDict :=
  { name := c.name
    passed := c.passed
    message := c.message
    severity := c.severity.value
    metadata := c.metadata }

/-- models.py `PillarResult` dataclass. -/
structure PillarResult where
  name : String
  checks : List CheckResult
  score : ℚ
  weight : ℚ := 1
deriving DecidableEq, Repr

/-- models.py `PillarResult.to_dict` image: keys name, checks, score,
weight, passed, failed, total. -/
structure PillarDict where
  name : String
  checks : List CheckDict
  score : ℚ
  weight : ℚ
  passed : Nat
  failed : Nat
  total : Nat
deriving DecidableEq, Repr

/-- models.py `PillarResult.to_dict`. -/
def PillarResult.to_dict (p : PillarResult) : PillarDict :=
  { name := p.name
    checks := p.checks.map CheckResult.to_dict
    score := p.score
    weight := p.weight
    passed := p.checks.countP (fun c => c.passed)
    failed := p.checks.countP (fun c => !c.passed)
    total := p.checks.length }

/-- models.py `ScanResult` dataclass. -/
structure ScanResult where
  pillars : List PillarResult
  overall_score : ℚ
  maturity_level : Int
  target_directory : String
deriving DecidableEq, Repr

/-- models.py `ScanResult.to_dict` summary block.  `pass_rate` is kept as
the exact rational the source computes; the source additionally formats it
to one decimal place with a percent sign for display. -/
structure Summary where
  total_checks : Nat
  passed : Nat
  failed : Nat
  pass_rate : ℚ
deriving DecidableEq, Repr

/-- models.py `ScanResult.to_dict` image. -/
structure ScanDict where
  target_directory : String
  overall_score : ℚ
  maturity_level : Int
  summary : Summary
  pillars : List PillarDict
deriving DecidableEq, Repr

/-- models.py `ScanResult.to_dict`. -/
def ScanResult.to_dict (r : ScanResult) : ScanDict :=
  let total_checks := (r.pillars.map (fun p => p.checks.length)).sum
  let passed_checks :=
    (r.pillars.map (fun p => p.checks.countP (fun c => c.passed))).sum
  let failed_checks := total_checks - passed_checks
  { target_directory := r.target_directory
    overall_score := r.overall_score
    maturity_level := r.maturity_level
    summary :=
      { total_checks := total_checks
        passed := passed_checks
        failed := failed_checks
        pass_rate :=
          if 0 < total_checks then
            (passed_checks : ℚ) / (total_checks : ℚ) * 100
          else 0 }
    pillars := r.pillars.map PillarResult.to_dict }

/-- models.py `ScanResult.get_maturity_label` label table (the `labels`
dict literal). -/
def maturityLabels : List (Int × String) :=
  [(1, "Initial - Ad-hoc processes"),
   (2, "Developing - Basic processes in place"),
   (3, "Defined - Documented and standardized"),
   (4, "Managed - Measured and controlled"),
   (5, "Optimizing - Continuous improvement")]

/-- models.py `ScanResult.get_maturity_label`:
`labels.get(self.maturity_level, "Unknown")`. -/
def ScanResult.get_maturity_label (r : ScanResult) : String :=
  ((maturityLabels.lookup r.maturity_level).getD "Unknown")

/-- The slice of filesystem state `Scanner.scan` itself inspects about the
target path (pathlib `exists()`, `is_dir()`, `resolve()`); pillars receive
the whole target and probe it through their own `evaluate`. -/
structure TargetDir where
  pathExists : Bool
  is_dir : Bool
  resolved : String

/-- pillar.py `Pillar`: the abstract capability {name, weight, evaluate}.
`evaluate` is an arbitrary function of the target, as every concrete
pillar supplies its own. -/
structure Pillar where
  name : String
  weight : ℚ := 1
  evaluate : TargetDir → List CheckResult

/-- pillar.py `Pillar.run`: run `evaluate`, score 100.0 on an empty check
list, else `(passed / len(checks)) * 100`, and wrap with name and
weight. -/
def Pillar.run (p : Pillar) (t : TargetDir) : PillarResult :=
  let checks := p.evaluate t
  let score : ℚ :=
    if checks = [] then 100
    else ((checks.countP (fun c => c.passed) : ℚ) / (checks.length : ℚ)) * 100
  { name := p.name
    checks := checks
    score := score
    weight := p.weight }

/-- The three errors scanner.py `Scanner.scan` raises before running any
pillar: `ValueError` for an empty registry, `FileNotFoundError` for a
missing target, `ValueError` for a non-directory target. -/
inductive ScanError where
  | noPillarsRegistered
  | targetNotFound
  | targetNotADirectory
deriving DecidableEq, Repr

/-- scanner.py `Scanner._calculate_overall_score`. -/
def calculateOverallScore (pillar_results : List PillarResult) : ℚ :=
  if pillar_results = [] then 0
  else
    let total_weight := (pillar_results.map (fun p => p.weight)).sum
    if total_weight = 0 then 0
    else (pillar_results.map (fun p => p.score * p.weight)).sum / total_weight

/-- scanner.py `Scanner._determine_maturity_level`. -/
def determineMaturityLevel (score : ℚ) : Int :=
  if score < 40 then 1
  else if score < 60 then 2
  else if score < 80 then 3
  else if score < 95 then 4
  else 5

/-- scanner.py `Scanner.scan`.  The registry `self._pillars` is the list
argument; the three precondition checks precede the pillar runs exactly as
in the source. -/
def Scanner.scan (pillars : List Pillar) (t : TargetDir) :
    Except ScanError ScanResult :=
  if pillars.isEmpty then .error .noPillarsRegistered
  else if !t.pathExists then .error .targetNotFound
  else if !t.is_dir then .error .targetNotADirectory
  else
    let pillar_results := pillars.map (fun p => p.run t)
    let overall_score := calculateOverallScore pillar_results
    .ok { pillars := pillar_results
          overall_score := overall_score
          maturity_level := determineMaturityLevel overall_score
          target_directory := t.resolved }

/-- `Scanner.scan` instrumented with the list of pillars whose `evaluate`
was invoked (every `Pillar.run` call applies `evaluate` once); mirrors
`Scanner.scan` branch for branch. -/
def Scanner.scanTraced (pillars : List Pillar) (t : TargetDir) :
    Except ScanError ScanResult × List String :=
  if pillars.isEmpty then (.error .noPillarsRegistered, [])
  else if !t.pathExists then (.error .targetNotFound, [])
  else if !t.is_dir then (.error .targetNotADirectory, [])
  else
    let pillar_results := pillars.map (fun p => p.run t)
    let overall_score := calculateOverallScore pillar_results
    (.ok { pillars := pillar_results
           overall_score := overall_score
           maturity_level := determineMaturityLevel overall_score
           target_directory := t.resolved },
     pillars.map (fun p => p.name))

/-!
Model of the Python runtime errors that CheckResult construction in the
pillar subclasses can raise.  The pillar code (e.g. pillars/security.py,
pillars/dev_environment.py) constructs
`CheckResult(..., severity=Severity.REQUIRED, level=1, ...)`:
`Severity.REQUIRED` is an attribute lookup on the enum class, and `level=`
is a keyword argument to the dataclass constructor.
-/

/-- Python exceptions relevant to the embedded pillar code:
attribute lookup failure, unexpected keyword argument, and OS-level read
failures (e.g. `PermissionError`). -/
inductive PyErr where
  | attributeError
  | typeError
  | osError
deriving DecidableEq, Repr

/-- Python attribute access `Severity.<memberName>` on the enum class of
models.py: succeeds for the four declared members, raises
`AttributeError` otherwise. -/
def severityMember (memberName : String) : Except PyErr Severity :=
  if memberName = "INFO" then .ok .info
  else if memberName = "WARNING" then .ok .warning
  else if memberName = "ERROR" then .ok .error
  else if memberName = "CRITICAL" then .ok .critical
  else .error .attributeError

/-- A Python call `CheckResult(name=..., passed=..., message=...,
severity=Severity.<sevName>, level=<lvl>)` as written throughout the
pillar subclasses: Python first evaluates the `Severity.<sevName>`
attribute lookup, then the dataclass constructor rejects any keyword
argument that is not a declared field with `TypeError`. -/
def pyCheckResultCall (name : String) (passed : Bool) (message : String)
    (sevName : String) (_lvl : Int) : Except PyErr CheckResult := do
  let sev ← severityMember sevName
  let kwargs := ["name", "passed", "message", "severity", "level"]
  if kwargs.all (fun k => decide (k ∈ CheckResult.fields)) then
    .ok { name := name, passed := passed, message := message
          severity := sev, metadata := [] }
  else .error .typeError

/-- `"pat" in s` on Python strings (substring containment). -/
def strContains (s pat : String) : Bool :=
  1 < (s.splitOn pat).length

/-- A file as seen by `py_file.read_text(errors="ignore")`: the read
either yields the file text or raises an OS error (the `errors="ignore"`
flag suppresses decoding errors only, not e.g. `PermissionError`). -/
structure PyFile where
  fileName : String
  readText : Except PyErr String

/-- The part of the `dev_env` discovery dict that
`DevEnvironmentPillar._check_python_requirements_documented` consults:
`dev_env["dependency_files"].get("python")`. -/
structure DevEnvState where
  pythonDepFile : Option PyFile

/-- The final `return CheckResult(...)` of
`_check_python_requirements_documented` (dev_environment.py line 338),
reached when no earlier branch returned. -/
def pythonReqsFallThrough : Except PyErr CheckResult :=
  pyCheckResultCall "Python requirements documented" false
    "Python requirements not properly documented" "OPTIONAL" 2

/-- dev_environment.py `_check_python_requirements_documented`
(lines 299-344), branch for branch: the early `Not a Python project`
return; the pyproject.toml branch whose whole body (read, substring test
and `return CheckResult(...)`) sits inside `try: ... except Exception:
pass`; the requirements.txt branch whose `read_text` is NOT wrapped in a
try; and the fall-through return. -/
def checkPythonRequirementsDocumented (st : DevEnvState) :
    Except PyErr CheckResult :=
  match st.pythonDepFile with
  | none =>
      pyCheckResultCall "Python requirements documented" true
        "Not a Python project" "OPTIONAL" 2
  | some f =>
      if f.fileName = "pyproject.toml" then
        let tryBody : Except PyErr (Option CheckResult) := do
          let content ← f.readText
          if strContains content "[project]" ||
              strContains content "[tool.poetry]" then
            let c ← pyCheckResultCall "Python requirements documented" true
              "Python requirements documented in pyproject.toml" "OPTIONAL" 2
            pure (some c)
          else pure none
        match tryBody with
        | .ok (some c) => .ok c
        | .ok none => pythonReqsFallThrough
        | .error _ => pythonReqsFallThrough
      else if f.fileName = "requirements.txt" then do
        let content ← f.readText
        if 0 < content.trim.length then
          pyCheckResultCall "Python requirements documented" true
            "Python requirements documented in requirements.txt" "OPTIONAL" 2
        else pythonReqsFallThrough
      else pythonReqsFallThrough

/-! Concrete inputs used to instantiate the theorems below. -/

/-- A single passing check, as a pillar could produce it. -/
def wCheck : CheckResult :=
  { name := "c1", passed := true, message := "m", severity := .info }

/-- A single failing check. -/
def failingCheck : CheckResult :=
  { name := "c0", passed := false, message := "m0", severity := .warning }

/-- A concrete pillar whose evaluate yields one passing check. -/
def wPillar : Pillar :=
  { name := "W", weight := 1, evaluate := fun _ => [wCheck] }

/-- An existing directory target. -/
def wTarget : TargetDir :=
  { pathExists := true, is_dir := true, resolved := "/w" }

/-- The scan result of `wPillar` against `wTarget`. -/
def wScanResult : ScanResult :=
  { pillars := [{ name := "W", checks := [wCheck], score := 100, weight := 1 }]
    overall_score := 100
    maturity_level := 5
    target_directory := "/w" }

/-- A nonexistent target path. -/
def missingTarget : TargetDir :=
  { pathExists := false, is_dir := false, resolved := "/missing" }

/-- A pillar of weight 2 whose single check fails (score 0). -/
def heavyPillar : Pillar :=
  { name := "A", weight := 2, evaluate := fun _ => [failingCheck] }

/-- A pillar of weight -1 with no checks (score 100); nothing in the code
constrains `Pillar.weight` to be nonnegative. -/
def negWeightPillar : Pillar :=
  { name := "B", weight := -1, evaluate := fun _ => [] }

/-- An existing directory target for the bounds counterexample. -/
def cxTarget : TargetDir :=
  { pathExists := true, is_dir := true, resolved := "/cx" }

/-- The scan result of `[heavyPillar, negWeightPillar]` against
`cxTarget`: total weight 2 + (-1) = 1, weighted sum 0*2 + 100*(-1) =
-100, hence overall score -100. -/
def cxScanResult : ScanResult :=
  { pillars :=
      [{ name := "A", checks := [failingCheck], score := 0, weight := 2 },
       { name := "B", checks := [], score := 100, weight := -1 }]
    overall_score := -100
    maturity_level := 1
    target_directory := "/cx" }

/-- A scan result whose maturity level is outside 1..5. -/
def unknownLevelResult : ScanResult :=
  { pillars := [], overall_score := 0, maturity_level := 7
    target_directory := "/x" }

/-! Theorems. -/

/-- Dropping the zero-weight pillars from a result list changes neither
the weight sum nor the weighted score sum, because any map that sends
zero-weight pillars to 0 sums equally over the filtered list. -/
theorem sum_map_filter_weight_ne_zero (f : PillarResult → ℚ)
    (hf : ∀ p, p.weight = 0 → f p = 0) (l : List PillarResult) :
    ((l.filter (fun p => decide (p.weight ≠ 0))).map f).sum =
      (l.map f).sum := by
  induction l with
  | nil => rfl
  | cons a t ih =>
    by_cases ha : a.weight = 0
    · have hd : decide (a.weight ≠ 0) = false := by simp [ha]
      rw [List.filter_cons, hd]
      simp only [Bool.false_eq_true, if_false, List.map_cons, List.sum_cons,
        hf a ha, zero_add]
      exact ih
    · have hd : decide (a.weight ≠ 0) = true := by simp [ha]
      rw [List.filter_cons, hd]
      simp only [if_true, List.map_cons, List.sum_cons]
      rw [ih]

/-- C1: `Scanner._calculate_overall_score` returns the weighted
arithmetic mean Σ(score·weight)/Σ(weight) of the pillar scores, returns
exactly 0 whenever the total weight is 0 (including the zero-pillar
case), and zero-weight pillars are effectively excluded: filtering them
out does not change the result. -/
theorem overall_score_weighted_mean (l : List PillarResult) :
    calculateOverallScore l =
      (if (l.map (fun p => p.weight)).sum = 0 then 0
       else (l.map (fun p => p.score * p.weight)).sum /
         (l.map (fun p => p.weight)).sum) ∧
    calculateOverallScore (l.filter (fun p => decide (p.weight ≠ 0))) =
      calculateOverallScore l := by
  have key : ∀ m : List PillarResult, calculateOverallScore m =
      (if (m.map (fun p => p.weight)).sum = 0 then 0
       else (m.map (fun p => p.score * p.weight)).sum /
         (m.map (fun p => p.weight)).sum) := by
    intro m
    by_cases hm : m = []
    · subst hm; simp [calculateOverallScore]
    · simp [calculateOverallScore, hm]
  have hw := sum_map_filter_weight_ne_zero (fun p => p.weight)
    (fun _ hp => hp) l
  have hsw := sum_map_filter_weight_ne_zero (fun p => p.score * p.weight)
    (fun p hp => by show p.score * p.weight = 0; rw [hp, mul_zero]) l
  refine ⟨key l, ?_⟩
  rw [key l, key (l.filter (fun p => decide (p.weight ≠ 0))), hw, hsw]

/-- C2: `Scanner._determine_maturity_level` is a non-decreasing step
function of the score with inclusive lower bounds 0/40/60/80/95 for
levels 1..5, and the boundary scores 40, 60, 80, 95, 100 map to levels
2, 3, 4, 5, 5. -/
theorem maturity_level_thresholds (s t : ℚ) (hst : s ≤ t) :
    determineMaturityLevel s ≤ determineMaturityLevel t ∧
    (determineMaturityLevel s = 1 ↔ s < 40) ∧
    (determineMaturityLevel s = 2 ↔ 40 ≤ s ∧ s < 60) ∧
    (determineMaturityLevel s = 3 ↔ 60 ≤ s ∧ s < 80) ∧
    (determineMaturityLevel s = 4 ↔ 80 ≤ s ∧ s < 95) ∧
    (determineMaturityLevel s = 5 ↔ 95 ≤ s) ∧
    determineMaturityLevel 40 = 2 ∧ determineMaturityLevel 60 = 3 ∧
    determineMaturityLevel 80 = 4 ∧ determineMaturityLevel 95 = 5 ∧
    determineMaturityLevel 100 = 5 := by
  refine ⟨?_, ?_, ?_, ?_, ?_, ?_, by decide, by decide, by decide,
    by decide, by decide⟩
  · unfold determineMaturityLevel
    split_ifs <;> norm_num <;> linarith
  all_goals
    unfold determineMaturityLevel
    split_ifs <;> constructor <;> intro h <;>
      first
        | (exfalso; omega)
        | (constructor <;> linarith)
        | linarith

/-- The witness for C2 at the concrete boundary pair (40, 100). -/
theorem maturity_level_thresholds_witness :
    determineMaturityLevel 40 ≤ determineMaturityLevel 100 :=
  (maturity_level_thresholds 40 100 (by norm_num)).1

/-- C3: `Pillar.run` carries the pillar's name, weight and unmodified
check list; the score is 100 when `evaluate` returned no checks and
otherwise 100·passed/total. -/
theorem pillar_run_spec (p : Pillar) (t : TargetDir) :
    (p.run t).name = p.name ∧ (p.run t).weight = p.weight ∧
    (p.run t).checks = p.evaluate t ∧
    (p.evaluate t = [] → (p.run t).score = 100) ∧
    (p.evaluate t ≠ [] →
      (p.run t).score =
        100 * ((p.evaluate t).countP (fun c => c.passed) : ℚ) /
          ((p.evaluate t).length : ℚ)) := by
  refine ⟨rfl, rfl, rfl, ?_, ?_⟩
  · intro h; simp [Pillar.run, h]
  · intro h; simp [Pillar.run, h]; ring

/-- The witness for C3 on the concrete one-check pillar. -/
theorem pillar_run_spec_witness :
    (wPillar.run wTarget).score =
      100 * ((wPillar.evaluate wTarget).countP (fun c => c.passed) : ℚ) /
        ((wPillar.evaluate wTarget).length : ℚ) :=
  (pillar_run_spec wPillar wTarget).2.2.2.2 (by decide)

/-- C4: `Scanner.scan` fails with the no-pillars error on an empty
registry, the not-found error on a nonexistent target and the
not-a-directory error on a non-directory target, and in each of these
cases no pillar's `evaluate` runs (the instrumented scan, which agrees
with `scan`, records an empty evaluation trace). -/
theorem scan_precondition_errors (ps : List Pillar) (t : TargetDir) :
    (Scanner.scanTraced ps t).1 = Scanner.scan ps t ∧
    (ps = [] → Scanner.scanTraced ps t = (.error .noPillarsRegistered, [])) ∧
    (ps ≠ [] → t.pathExists = false →
      Scanner.scanTraced ps t = (.error .targetNotFound, [])) ∧
    (ps ≠ [] → t.pathExists = true → t.is_dir = false →
      Scanner.scanTraced ps t = (.error .targetNotADirectory, [])) := by
  refine ⟨?_, ?_, ?_, ?_⟩
  · unfold Scanner.scan Scanner.scanTraced
    split_ifs <;> rfl
  · intro h
    subst h
    rfl
  · intro h h2
    have he : ps.isEmpty = false := by
      cases ps with
      | nil => exact absurd rfl h
      | cons a l => rfl
    unfold Scanner.scanTraced
    rw [he, h2]
    rfl
  · intro h h2 h3
    have he : ps.isEmpty = false := by
      cases ps with
      | nil => exact absurd rfl h
      | cons a l => rfl
    unfold Scanner.scanTraced
    rw [he, h2, h3]
    rfl

/-- The witness for C4: a registered pillar and a missing target give the
not-found error with no pillar evaluated. -/
theorem scan_precondition_errors_witness :
    Scanner.scanTraced [wPillar] missingTarget =
      (.error .targetNotFound, []) :=
  (scan_precondition_errors [wPillar] missingTarget).2.2.1
    (List.cons_ne_nil _ _) rfl

/-- C8: in the serialized mapping, the per-pillar `total` fields sum to
`summary.total_checks` and the per-pillar `passed` fields sum to
`summary.passed`. -/
theorem to_dict_summary_sums (r : ScanResult) :
    (((r.to_dict).pillars.map (fun d => d.total)).sum =
      (r.to_dict).summary.total_checks) ∧
    (((r.to_dict).pillars.map (fun d => d.passed)).sum =
      (r.to_dict).summary.passed) := by
  constructor <;>
    simp [ScanResult.to_dict, PillarResult.to_dict, List.map_map,
      Function.comp_def]

/-- C9: a successful `Scanner.scan` returns exactly one `PillarResult`
per registered pillar, in registration order (the result list is the map
of `Pillar.run` over the registry), and two invocations against the same
unchanged target agree. -/
theorem scan_pillar_order (ps : List Pillar) (t : TargetDir)
    (r1 r2 : ScanResult)
    (h1 : Scanner.scan ps t = .ok r1) (h2 : Scanner.scan ps t = .ok r2) :
    r1.pillars = ps.map (fun p => p.run t) ∧
    r2.pillars = ps.map (fun p => p.run t) ∧ r1 = r2 := by
  have hr : r1 = r2 := by
    rw [h1] at h2
    exact Except.ok.inj h2
  subst hr
  unfold Scanner.scan at h1
  split_ifs at h1
  all_goals
    have hinj := Except.ok.inj h1
    exact ⟨by rw [← hinj], by rw [← hinj], rfl⟩

/-- Evaluating the one-pillar scanner on the concrete target. -/
theorem wScan_eq : Scanner.scan [wPillar] wTarget = .ok wScanResult := by
  norm_num [Scanner.scan, Pillar.run, wPillar, wTarget, wScanResult,
    wCheck, calculateOverallScore, determineMaturityLevel]

/-- The witness for C9 on the one-pillar scanner. -/
theorem scan_pillar_order_witness :
    wScanResult.pillars = [wPillar].map (fun p => p.run wTarget) :=
  (scan_pillar_order [wPillar] wTarget wScanResult wScanResult
    wScan_eq wScan_eq).1

/-- C10: `get_maturity_label` is total: levels 1..5 map to their label
strings and every other integer maps to "Unknown". -/
theorem maturity_label_total (r : ScanResult) :
    (r.maturity_level = 1 →
      r.get_maturity_label = "Initial - Ad-hoc processes") ∧
    (r.maturity_level = 2 →
      r.get_maturity_label = "Developing - Basic processes in place") ∧
    (r.maturity_level = 3 →
      r.get_maturity_label = "Defined - Documented and standardized") ∧
    (r.maturity_level = 4 →
      r.get_maturity_label = "Managed - Measured and controlled") ∧
    (r.maturity_level = 5 →
      r.get_maturity_label = "Optimizing - Continuous improvement") ∧
    (r.maturity_level < 1 ∨ 5 < r.maturity_level →
      r.get_maturity_label = "Unknown") := by
  refine ⟨?_, ?_, ?_, ?_, ?_, ?_⟩ <;> intro h
  · unfold ScanResult.get_maturity_label; rw [h]; decide
  · unfold ScanResult.get_maturity_label; rw [h]; decide
  · unfold ScanResult.get_maturity_label; rw [h]; decide
  · unfold ScanResult.get_maturity_label; rw [h]; decide
  · unfold ScanResult.get_maturity_label; rw [h]; decide
  · have h1 : (r.maturity_level == (1 : Int)) = false :=
      beq_eq_false_iff_ne.mpr (by rcases h with h | h <;> omega)
    have h2 : (r.maturity_level == (2 : Int)) = false :=
      beq_eq_false_iff_ne.mpr (by rcases h with h | h <;> omega)
    have h3 : (r.maturity_level == (3 : Int)) = false :=
      beq_eq_false_iff_ne.mpr (by rcases h with h | h <;> omega)
    have h4 : (r.maturity_level == (4 : Int)) = false :=
      beq_eq_false_iff_ne.mpr (by rcases h with h | h <;> omega)
    have h5 : (r.maturity_level == (5 : Int)) = false :=
      beq_eq_false_iff_ne.mpr (by rcases h with h | h <;> omega)
    simp [ScanResult.get_maturity_label, maturityLabels, List.lookup,
      h1, h2, h3, h4, h5]

/-- The witness for C10 at maturity level 7. -/
theorem maturity_label_total_witness :
    unknownLevelResult.get_maturity_label = "Unknown" :=
  (maturity_label_total unknownLevelResult).2.2.2.2.2
    (Or.inr (by decide))

/-- C5 (documents the code bug): the `CheckResult` dataclass of models.py
accepts no `level` keyword, and the `Severity` enum has no REQUIRED,
RECOMMENDED or OPTIONAL member, so the pillar constructions
`CheckResult(..., severity=Severity.REQUIRED, level=1, ...)` raise
instead of producing a check result carrying a level. -/
theorem checkresult_level_field_missing :
    "level" ∉ CheckResult.fields ∧
    severityMember "REQUIRED" = .error .attributeError ∧
    severityMember "RECOMMENDED" = .error .attributeError ∧
    severityMember "OPTIONAL" = .error .attributeError := by
  refine ⟨by decide, rfl, rfl, rfl⟩

/-- C6 (documents the code bug):
`DevEnvironmentPillar._check_python_requirements_documented` raises a
Python exception on every input — every return path constructs
`CheckResult(..., severity=Severity.OPTIONAL, level=2)` and the
`Severity.OPTIONAL` lookup raises `AttributeError` (the pyproject.toml
branch catches it inside its try block, only to raise again at the
fall-through construction); so no check result, failed or otherwise, is
ever produced. -/
theorem python_requirements_check_always_raises (st : DevEnvState) :
    ∃ e : PyErr, checkPythonRequirementsDocumented st = .error e := by
  have hcall : ∀ (n : String) (p : Bool) (m : String) (lv : Int),
      pyCheckResultCall n p m "OPTIONAL" lv = .error .attributeError := by
    intro n p m lv
    rfl
  rcases st with ⟨pf⟩
  cases pf with
  | none =>
      exact ⟨.attributeError,
        by simp [checkPythonRequirementsDocumented, hcall]⟩
  | some f =>
      by_cases h1 : f.fileName = "pyproject.toml"
      · refine ⟨.attributeError, ?_⟩
        simp only [checkPythonRequirementsDocumented, h1, if_pos]
        cases hr : f.readText with
        | error e =>
            simp [hr, pythonReqsFallThrough, hcall, Except.instMonad, Except.bind]
        | ok content =>
            by_cases h2 : (strContains content "[project]" = true ∨
                strContains content "[tool.poetry]" = true)
            · simp [hr, h2, hcall, pythonReqsFallThrough, Except.instMonad,
                Except.bind, Except.pure]
            · simp [hr, h2, pythonReqsFallThrough, hcall, Except.instMonad,
                Except.bind, Except.pure]
      · by_cases h2 : f.fileName = "requirements.txt"
        · cases hr : f.readText with
          | error e =>
              exact ⟨e, by simp [checkPythonRequirementsDocumented, h1, h2,
                hr, Except.instMonad, Except.bind]⟩
          | ok content =>
              refine ⟨.attributeError, ?_⟩
              by_cases h3 : 0 < content.trim.length <;>
                simp [checkPythonRequirementsDocumented, h1, h2, hr, h3,
                  hcall, pythonReqsFallThrough, Except.instMonad, Except.bind]
        · exact ⟨.attributeError,
            by simp [checkPythonRequirementsDocumented, h1, h2,
              pythonReqsFallThrough, hcall]⟩

/-- C7 counterexample: with a weight-2 pillar scoring 0 and a weight -1
pillar scoring 100 (no precondition restricts weights), `Scanner.scan`
succeeds with overall score -100, violating `0 <= overall_score`. -/
theorem overall_score_bounds_counterexample :
    Scanner.scan [heavyPillar, negWeightPillar] cxTarget =
      .ok cxScanResult ∧
    ¬ (0 ≤ cxScanResult.overall_score ∧
        cxScanResult.overall_score ≤ 100) := by
  constructor
  · have hne : ∀ (a : PillarResult) (l : List PillarResult),
        (a :: l = []) = False := by
      intro a l
      simp
    norm_num [Scanner.scan, Pillar.run, heavyPillar, negWeightPillar,
      cxTarget, cxScanResult, failingCheck, calculateOverallScore,
      determineMaturityLevel, hne]
  · norm_num [cxScanResult]

/-- `Pillar.run` scores always lie in [0, 100]. -/
theorem run_score_bounds (p : Pillar) (t : TargetDir) :
    0 ≤ (p.run t).score ∧ (p.run t).score ≤ 100 := by
  unfold Pillar.run
  by_cases h : p.evaluate t = []
  · simp [h]
  · simp only [h, if_false]
    have hlen : (0 : ℚ) < ((p.evaluate t).length : ℚ) := by
      have := List.length_pos.mpr h
      exact_mod_cast this
    have hcount : (((p.evaluate t).countP (fun c => c.passed)) : ℚ) ≤
        ((p.evaluate t).length : ℚ) := by
      exact_mod_cast List.countP_le_length _
    constructor
    · have h0 : (0 : ℚ) ≤
          (((p.evaluate t).countP (fun c => c.passed)) : ℚ) := by
        positivity
      positivity
    · have hdiv : (((p.evaluate t).countP (fun c => c.passed)) : ℚ) /
          ((p.evaluate t).length : ℚ) ≤ 1 :=
        (div_le_one hlen).mpr hcount
      nlinarith

/-- `Scanner._calculate_overall_score` stays in [0, 100] when every
pillar has nonnegative weight and a score in [0, 100]. -/
theorem calc_overall_bounds (l : List PillarResult)
    (h : ∀ p ∈ l, 0 ≤ p.weight ∧ 0 ≤ p.score ∧ p.score ≤ 100) :
    0 ≤ calculateOverallScore l ∧ calculateOverallScore l ≤ 100 := by
  unfold calculateOverallScore
  by_cases hl : l = []
  · simp [hl]
  · simp only [hl, if_false]
    by_cases hw0 : (l.map (fun p => p.weight)).sum = 0
    · simp [hw0]
    · have hWnn : 0 ≤ (l.map (fun p => p.weight)).sum := by
        apply List.sum_nonneg
        intro x hx
        obtain ⟨p, hp, rfl⟩ := List.mem_map.mp hx
        exact (h p hp).1
      have hWpos : 0 < (l.map (fun p => p.weight)).sum :=
        lt_of_le_of_ne hWnn (Ne.symm hw0)
      have hnum_nn : 0 ≤ (l.map (fun p => p.score * p.weight)).sum := by
        apply List.sum_nonneg
        intro x hx
        obtain ⟨p, hp, rfl⟩ := List.mem_map.mp hx
        exact mul_nonneg (h p hp).2.1 (h p hp).1
      have hnum_le : (l.map (fun p => p.score * p.weight)).sum ≤
          100 * (l.map (fun p => p.weight)).sum := by
        rw [← List.sum_map_mul_left]
        apply List.sum_le_sum
        intro p hp
        exact mul_le_mul_of_nonneg_right (h p hp).2.2 (h p hp).1
      rw [if_neg hw0]
      constructor
      · exact div_nonneg hnum_nn hWnn
      · rw [div_le_iff₀ hWpos]
        linarith

/-- C7 amended: `Pillar.run` scores always lie in [0, 100]
unconditionally, and `Scanner.scan` results have overall scores in
[0, 100] whenever every registered pillar has nonnegative weight. -/
theorem overall_score_bounds_amended (ps : List Pillar) (t : TargetDir)
    (r : ScanResult) (q : Pillar) (u : TargetDir)
    (hw : ∀ p ∈ ps, 0 ≤ p.weight)
    (hs : Scanner.scan ps t = .ok r) :
    (0 ≤ r.overall_score ∧ r.overall_score ≤ 100) ∧
    (0 ≤ (q.run u).score ∧ (q.run u).score ≤ 100) := by
  refine ⟨?_, run_score_bounds q u⟩
  unfold Scanner.scan at hs
  split_ifs at hs
  have hinj := Except.ok.inj hs
  have hb : 0 ≤ calculateOverallScore (ps.map (fun p => p.run t)) ∧
      calculateOverallScore (ps.map (fun p => p.run t)) ≤ 100 := by
    apply calc_overall_bounds
    intro p hp
    obtain ⟨p0, hp0, rfl⟩ := List.mem_map.mp hp
    exact ⟨hw p0 hp0, (run_score_bounds p0 t).1, (run_score_bounds p0 t).2⟩
  rw [← hinj]
  exact hb

/-- The witness for the amended C7 on the one-pillar scanner. -/
theorem overall_score_bounds_amended_witness :
    (0 ≤ wScanResult.overall_score ∧ wScanResult.overall_score ≤ 100) ∧
    (0 ≤ (wPillar.run wTarget).score ∧ (wPillar.run wTarget).score ≤ 100) :=
  overall_score_bounds_amended [wPillar] wTarget wScanResult wPillar wTarget
    (by
      intro p hp
      rcases List.mem_singleton.mp hp with rfl
      norm_num [wPillar])
    wScan_eq

end AgentReadiness
